import Mathlib

/-!
Verification of the quality-fingerprinting core (`src/cache/quality.service.ts`
of the optimized-versions-server repository): a shallow embedding of the
`QualityService` operations (`extractQualityFromUrl`, `generateQualityHash`,
`getQualityDescription`, `areQualitiesEqual`, `getQualityScore`,
`getQualityMetrics`) together with the platform functions they invoke
(the WHATWG `URL` constructor / `URLSearchParams`, JavaScript `parseInt`,
`Math.round`, `JSON.stringify` on string-valued objects, and node's
`createHash('md5')`), and proofs of the specification's claims about them.

Modelling conventions:
* JavaScript strings are Lean `String`s; `string | undefined` fields are
  `Option String` (`none` = the key is absent / the value is `undefined`).
* JavaScript numbers are modelled as `Option ℚ`, with `none` playing the
  role of `NaN`; all arithmetic reached by these functions is exact in ℚ
  (divisors are the constants 1000, 10, 8, 1000000; no overflow, no
  infinities), so exact rationals are a faithful stand-in for float64 on
  this domain, and `NaN`-propagation is `Option`-propagation.
* Fallible platform code (the `URL` constructor, which throws on a
  malformed URL) is modelled with `Option`; the service's `try/catch`
  becomes a `match`.
-/

namespace QualityService

/-! ### 32-bit word arithmetic and MD5 (node `createHash('md5')`) -/

/-- Truncate to a 32-bit word. -/
def w32 (n : Nat) : Nat := n % 4294967296

/-- 32-bit modular addition. -/
def wadd (a b : Nat) : Nat := w32 (a + b)

/-- 32-bit bitwise complement (for arguments below `2^32`). -/
def wnot (a : Nat) : Nat := Nat.xor a 4294967295

/-- 32-bit left rotation by `s` bits (`0 ≤ s < 32`). -/
def rotl (a s : Nat) : Nat := w32 (a <<< s) ||| (a >>> (32 - s))

/-- The MD5 per-step nonlinear function (round selected by the step index). -/
def md5F (i b c d : Nat) : Nat :=
  if i < 16 then (b &&& c) ||| (wnot b &&& d)
  else if i < 32 then (d &&& b) ||| (wnot d &&& c)
  else if i < 48 then Nat.xor b (Nat.xor c d)
  else Nat.xor c (b ||| wnot d)

/-- The MD5 message-word index for step `i`. -/
def md5G (i : Nat) : Nat :=
  if i < 16 then i
  else if i < 32 then (5 * i + 1) % 16
  else if i < 48 then (3 * i + 5) % 16
  else (7 * i) % 16

/-- The MD5 sine-derived additive constants `⌊|sin(i+1)|·2^32⌋`. -/
def md5K : List Nat := [
  3614090360, 3905402710, 606105819, 3250441966,
  4118548399, 1200080426, 2821735955, 4249261313,
  1770035416, 2336552879, 4294925233, 2304563134,
  1804603682, 4254626195, 2792965006, 1236535329,
  4129170786, 3225465664, 643717713, 3921069994,
  3593408605, 38016083, 3634488961, 3889429448,
  568446438, 3275163606, 4107603335, 1163531501,
  2850285829, 4243563512, 1735328473, 2368359562,
  4294588738, 2272392833, 1839030562, 4259657740,
  2763975236, 1272893353, 4139469664, 3200236656,
  681279174, 3936430074, 3572445317, 76029189,
  3654602809, 3873151461, 530742520, 3299628645,
  4096336452, 1126891415, 2878612391, 4237533241,
  1700485571, 2399980690, 4293915773, 2240044497,
  1873313359, 4264355552, 2734768916, 1309151649,
  4149444226, 3174756917, 718787259, 3951481745]

/-- The MD5 per-step left-rotation amounts. -/
def md5S : List Nat := [
  7, 12, 17, 22, 7, 12, 17, 22, 7, 12, 17, 22, 7, 12, 17, 22,
  5, 9, 14, 20, 5, 9, 14, 20, 5, 9, 14, 20, 5, 9, 14, 20,
  4, 11, 16, 23, 4, 11, 16, 23, 4, 11, 16, 23, 4, 11, 16, 23,
  6, 10, 15, 21, 6, 10, 15, 21, 6, 10, 15, 21, 6, 10, 15, 21]

/-- Assemble a byte list into 32-bit little-endian words. -/
def toLEWords : List Nat → List Nat
  | b0 :: b1 :: b2 :: b3 :: rest =>
      (b0 + 256 * b1 + 65536 * b2 + 16777216 * b3) :: toLEWords rest
  | _ => []

/-- MD5 padding: append `0x80`, zeros to 56 mod 64, then the bit length as
a 64-bit little-endian quantity. -/
def md5Pad (msg : List Nat) : List Nat :=
  let len := msg.length
  let zeros := (120 - (len + 1) % 64) % 64
  let lenBytes := (List.range 8).map fun i => ((len * 8) >>> (8 * i)) % 256
  msg ++ 128 :: List.replicate zeros 0 ++ lenBytes

/-- Split a byte list into 64-byte chunks (structural recursion on a fuel
bound; `l.length` steps always suffice since each step consumes at least
one element). -/
def chunk64Go : Nat → List Nat → List (List Nat)
  | 0, _ => []
  | _, [] => []
  | fuel + 1, l => l.take 64 :: chunk64Go fuel (l.drop 64)

/-- Split a byte list into 64-byte chunks. -/
def chunk64 (l : List Nat) : List (List Nat) := chunk64Go l.length l

/-- One step of the MD5 compression function. -/
def md5Step (M : List Nat) (st : Nat × Nat × Nat × Nat) (i : Nat) :
    Nat × Nat × Nat × Nat :=
  let (a, b, c, d) := st
  let tmp := wadd (wadd (wadd a (md5F i b c d)) (md5K.getD i 0))
      (M.getD (md5G i) 0)
  (d, wadd b (rotl tmp (md5S.getD i 0)), b, c)

/-- Process one 64-byte block. -/
def md5Block (st : Nat × Nat × Nat × Nat) (block : List Nat) :
    Nat × Nat × Nat × Nat :=
  let M := toLEWords block
  let (a, b, c, d) := (List.range 64).foldl (md5Step M) st
  let (a0, b0, c0, d0) := st
  (wadd a0 a, wadd b0 b, wadd c0 c, wadd d0 d)

/-- A 32-bit word as 4 little-endian bytes. -/
def leBytes4 (w : Nat) : List Nat :=
  [w % 256, (w >>> 8) % 256, (w >>> 16) % 256, (w >>> 24) % 256]

/-- MD5 digest (16 bytes) of a byte message. -/
def md5Bytes (msg : List Nat) : List Nat :=
  let (a, b, c, d) := (chunk64 (md5Pad msg)).foldl md5Block
      (1732584193, 4023233417, 2562383102, 271733878)
  leBytes4 a ++ leBytes4 b ++ leBytes4 c ++ leBytes4 d

/-- Lowercase hexadecimal digit. -/
def hexDigit (n : Nat) : Char :=
  if n < 10 then Char.ofNat (48 + n) else Char.ofNat (87 + n)

/-- Lowercase hexadecimal rendering of a byte list (node's `digest('hex')`). -/
def hexOfBytes (l : List Nat) : String :=
  String.mk ((l.map fun b => [hexDigit (b / 16), hexDigit (b % 16)]).flatten)

/-- UTF-8 encoding of one character. -/
def utf8Bytes (c : Char) : List Nat :=
  let n := c.toNat
  if n < 128 then [n]
  else if n < 2048 then [192 + n / 64, 128 + n % 64]
  else if n < 65536 then [224 + n / 4096, 128 + (n / 64) % 64, 128 + n % 64]
  else [240 + n / 262144, 128 + (n / 4096) % 64, 128 + (n / 64) % 64,
    128 + n % 64]

/-- UTF-8 encoding of a string (node `hash.update(s)` uses UTF-8). -/
def strBytes (s : String) : List Nat := (s.data.map utf8Bytes).flatten

/-! ### The WHATWG `URL` constructor and `URLSearchParams`

`extractQualityFromUrl` calls `new URL(url)` and reads `url.searchParams`.
These platform functions are modelled here from the WHATWG URL standard, to
the depth the service exercises: input trimming, scheme parsing (a URL
without a valid `scheme:` head fails to parse, which is what makes the
constructor throw), authority/host extraction for special schemes (an empty
host is a failure), query/fragment splitting, and
`application/x-www-form-urlencoded` parsing of the query (`&`-separated
pairs, first `=` splits name from value, `+` means space, `%XY`
percent-decoding followed by UTF-8 decoding with U+FFFD replacement,
`get` returns the first binding or null). Host punycoding/IP parsing and
the query re-encoding of non-ASCII code points (identity on ASCII) are not
modelled. -/

/-- ASCII lower-casing of a string (character-wise `Char.toLower`). -/
def strLower (s : String) : String := String.mk (s.data.map Char.toLower)

/-- ASCII upper-casing of a string (character-wise `Char.toUpper`); this
models `toUpperCase` on the ASCII strings these fields carry. -/
def strUpper (s : String) : String := String.mk (s.data.map Char.toUpper)

/-- Split a character list at every occurrence of `sep` (empty pieces are
kept, like `String.split`). -/
def splitChar (sep : Char) : List Char → List (List Char)
  | [] => [[]]
  | c :: rest =>
    if c == sep then [] :: splitChar sep rest
    else
      match splitChar sep rest with
      | h :: t => (c :: h) :: t
      | [] => [[c]]

/-- An ASCII letter. -/
def isAsciiAlpha (c : Char) : Bool :=
  ('a' ≤ c && c ≤ 'z') || ('A' ≤ c && c ≤ 'Z')

/-- A character allowed after the first position of a URL scheme. -/
def isSchemeChar (c : Char) : Bool :=
  isAsciiAlpha c || c.isDigit || c == '+' || c == '-' || c == '.'

/-- Split `scheme:` off the front: the scheme must start with an ASCII
letter, continue with scheme characters and end at a colon, else the URL
fails to parse (there is no base URL in this service). -/
def schemeSplit (acc : List Char) : List Char → Option (String × List Char)
  | [] => none
  | c :: rest =>
    if c == ':' then
      if acc.isEmpty then none else some (String.mk acc.reverse, rest)
    else if (acc.isEmpty && isAsciiAlpha c) ||
        (!acc.isEmpty && isSchemeChar c) then
      schemeSplit (c :: acc) rest
    else none

/-- The WHATWG special schemes. -/
def specialSchemes : List String := ["ftp", "file", "http", "https", "ws", "wss"]

/-- Split at the first occurrence of `sep`: the part before it, and the part
after it (empty when `sep` does not occur). -/
def splitFirst (cs : List Char) (sep : Char) : List Char × List Char :=
  (cs.takeWhile fun c => !(c == sep),
   (cs.dropWhile fun c => !(c == sep)).drop 1)

/-- The part of an authority after its last `@` (drops userinfo). -/
def afterLastAt (cs : List Char) : List Char :=
  (cs.reverse.takeWhile fun c => !(c == '@')).reverse

/-- Leading/trailing C0-control-or-space trimming of URL input. -/
def urlTrim (cs : List Char) : List Char :=
  ((cs.dropWhile fun c => c ≤ ' ').reverse.dropWhile fun c => c ≤ ' ').reverse

/-- A parsed URL record (the components the service can observe). -/
structure ParsedURL where
  scheme : String
  host : String
  path : String
  query : String
  fragment : String
deriving Repr, DecidableEq

/-- The WHATWG `URL` constructor, modelled: `none` where `new URL(url)`
throws `TypeError`. -/
def parseURL (url : String) : Option ParsedURL :=
  let cs := (urlTrim url.data).filter fun c =>
    !(c == '\t' || c == '\n' || c == '\r')
  match schemeSplit [] cs with
  | none => none
  | some (schemeRaw, rest) =>
    let scheme := strLower schemeRaw
    let (beforeHash, frag) := splitFirst rest '#'
    let (beforeQ, query) := splitFirst beforeHash '?'
    if specialSchemes.contains scheme && !(scheme == "file") then
      let isSlash : Char → Bool := fun c => c == '/' || c == '\\'
      let afterSlashes := beforeQ.dropWhile isSlash
      let auth := afterSlashes.takeWhile fun c => !(isSlash c)
      let pathPart := afterSlashes.dropWhile fun c => !(isSlash c)
      let host := (afterLastAt auth).takeWhile fun c => !(c == ':')
      if host.isEmpty then none
      else some ⟨scheme, String.mk host, String.mk pathPart,
        String.mk query, String.mk frag⟩
    else
      some ⟨scheme, "", String.mk beforeQ, String.mk query, String.mk frag⟩

/-- Hexadecimal digit value of a byte (for percent-decoding). -/
def hexValByte (b : Nat) : Option Nat :=
  if 48 ≤ b && b ≤ 57 then some (b - 48)
  else if 65 ≤ b && b ≤ 70 then some (b - 55)
  else if 97 ≤ b && b ≤ 102 then some (b - 87)
  else none

/-- Percent-decoding on bytes: `%XY` with two hex digits becomes one byte,
anything else passes through. -/
def percentDecodeBytes : List Nat → List Nat
  | 37 :: b1 :: b2 :: rest =>
    match hexValByte b1, hexValByte b2 with
    | some h, some l => (16 * h + l) :: percentDecodeBytes rest
    | _, _ => 37 :: percentDecodeBytes (b1 :: b2 :: rest)
  | b :: rest => b :: percentDecodeBytes rest
  | [] => []

/-- The U+FFFD replacement character. -/
def repChar : Char := Char.ofNat 65533

/-- A UTF-8 continuation byte. -/
def isCont (b : Nat) : Bool := 128 ≤ b && b < 192

/-- UTF-8 decoding with U+FFFD replacement of invalid sequences
(structural recursion on a fuel bound; every step consumes at least one
byte, so the byte count is always enough fuel). -/
def utf8DecodeGo : Nat → List Nat → List Char
  | 0, _ => []
  | _, [] => []
  | fuel + 1, b :: rest =>
    if b < 128 then Char.ofNat b :: utf8DecodeGo fuel rest
    else if 194 ≤ b && b ≤ 223 then
      match rest with
      | c1 :: rest2 =>
        if isCont c1 then
          Char.ofNat ((b - 192) * 64 + (c1 - 128)) :: utf8DecodeGo fuel rest2
        else repChar :: utf8DecodeGo fuel rest
      | [] => [repChar]
    else if 224 ≤ b && b ≤ 239 then
      match rest with
      | c1 :: c2 :: rest2 =>
        if isCont c1 && isCont c2 then
          let n := (b - 224) * 4096 + (c1 - 128) * 64 + (c2 - 128)
          if 2048 ≤ n && !(55296 ≤ n && n ≤ 57343) then
            Char.ofNat n :: utf8DecodeGo fuel rest2
          else repChar :: utf8DecodeGo fuel rest
        else repChar :: utf8DecodeGo fuel rest
      | _ => repChar :: utf8DecodeGo fuel rest
    else if 240 ≤ b && b ≤ 244 then
      match rest with
      | c1 :: c2 :: c3 :: rest2 =>
        if isCont c1 && isCont c2 && isCont c3 then
          let n := (b - 240) * 262144 + (c1 - 128) * 4096 +
            (c2 - 128) * 64 + (c3 - 128)
          if 65536 ≤ n && n ≤ 1114111 then
            Char.ofNat n :: utf8DecodeGo fuel rest2
          else repChar :: utf8DecodeGo fuel rest
        else repChar :: utf8DecodeGo fuel rest
      | _ => repChar :: utf8DecodeGo fuel rest
    else repChar :: utf8DecodeGo fuel rest

/-- UTF-8 decoding with U+FFFD replacement of invalid sequences. -/
def utf8Decode (bs : List Nat) : List Char := utf8DecodeGo bs.length bs

/-- `application/x-www-form-urlencoded` decoding of one token: `+` means
space, then percent-decode, then UTF-8 decode. -/
def formDecode (cs : List Char) : String :=
  let spaced := cs.map fun c => if c == '+' then ' ' else c
  String.mk (utf8Decode (percentDecodeBytes (spaced.map utf8Bytes).flatten))

/-- Parse a query string into its ordered name/value pairs
(`URLSearchParams`). -/
def parseUrlEncoded (query : String) : List (String × String) :=
  (splitChar '&' query.data).filterMap fun cs =>
    if cs.isEmpty then none
    else
      let name := cs.takeWhile fun c => !(c == '=')
      let value := (cs.dropWhile fun c => !(c == '=')).drop 1
      some (formDecode name, formDecode value)

/-- `params.get(name)`: the first binding of `name`, or null (`none`). -/
def getParam (ps : List (String × String)) (name : String) : Option String :=
  (ps.find? fun p => p.1 == name).map Prod.snd

/-! ### The quality descriptor and `extractQualityFromUrl` -/

/-- JavaScript truthiness of a `string | undefined` value: `undefined`,
null and the empty string are falsy. -/
def truthy (o : Option String) : Bool := !(o.getD "" == "")

/-- `a || b || undefined` on `string | null` values: the first truthy
operand, else `undefined`. -/
def orParam (a b : Option String) : Option String :=
  if truthy a then a else if truthy b then b else none

/-- `a || undefined` on a `string | null` value. -/
def orSingle (a : Option String) : Option String :=
  if truthy a then a else none

/-- The `QualityInfo` interface: a fixed vocabulary of optional string
attributes (`none` = the key is absent). Fields are declared in the order
of the object literal in `extractQualityFromUrl`. -/
structure QualityInfo where
  maxVideoBitrate : Option String := none
  videoCodec : Option String := none
  maxWidth : Option String := none
  maxHeight : Option String := none
  videoLevel : Option String := none
  profile : Option String := none
  maxFramerate : Option String := none
  videoBitDepth : Option String := none
  audioCodec : Option String := none
  audioChannels : Option String := none
  audioBitrate : Option String := none
  audioSampleRate : Option String := none
  container : Option String := none
  segmentContainer : Option String := none
  subtitleCodec : Option String := none
  audioStreamIndex : Option String := none
  subtitleStreamIndex : Option String := none
  audioLanguage : Option String := none
  subtitleLanguage : Option String := none
  maxAudioChannels : Option String := none
  transcodingMaxAudioChannels : Option String := none
  subtitleMethod : Option String := none
  startTimeTicks : Option String := none
  mediaSourceId : Option String := none
  deviceId : Option String := none
  playSessionId : Option String := none
deriving Repr, DecidableEq

/-- The object-literal body of `extractQualityFromUrl` (lines 17–56): each
field is a `params.get` fallback chain ending in `|| undefined`. The
subsequent delete-undefined loop (lines 59–63) is the identity in this
model, since an `undefined`-valued key and an absent key are both `none`. -/
def buildQualityInfo (ps : List (String × String)) : QualityInfo :=
  let g := getParam ps
  { maxVideoBitrate := orParam (g "maxVideoBitrate") (g "MaxVideoBitrate")
    videoCodec := orParam (g "videoCodec") (g "VideoCodec")
    maxWidth := orParam (g "maxWidth") (g "MaxWidth")
    maxHeight := orParam (g "maxHeight") (g "MaxHeight")
    videoLevel := orParam (g "videoLevel") (g "VideoLevel")
    profile := orParam (g "profile") (g "Profile")
    maxFramerate := orParam (g "maxFramerate") (g "MaxFramerate")
    videoBitDepth := orParam (g "videoBitDepth") (g "VideoBitDepth")
    audioCodec := orParam (g "audioCodec") (g "AudioCodec")
    audioChannels := orParam (g "audioChannels") (g "AudioChannels")
    audioBitrate := orParam (g "audioBitrate") (g "AudioBitrate")
    audioSampleRate := orParam (g "audioSampleRate") (g "AudioSampleRate")
    container := orParam (g "container") (g "Container")
    segmentContainer := orParam (g "segmentContainer") (g "SegmentContainer")
    subtitleCodec := orParam (g "subtitleCodec") (g "SubtitleCodec")
    audioStreamIndex := orSingle (g "audioStreamIndex")
    subtitleStreamIndex := orSingle (g "subtitleStreamIndex")
    audioLanguage := orSingle (g "audioLanguage")
    subtitleLanguage := orSingle (g "subtitleLanguage")
    maxAudioChannels := orSingle (g "maxAudioChannels")
    transcodingMaxAudioChannels := orSingle (g "transcodingMaxAudioChannels")
    subtitleMethod := orSingle (g "subtitleMethod")
    startTimeTicks := orSingle (g "startTimeTicks")
    mediaSourceId := orSingle (g "MediaSourceId")
    deviceId := orSingle (g "DeviceId")
    playSessionId := orSingle (g "PlaySessionId") }

/-- `extractQualityFromUrl` (lines 12–71): parse the URL's query into a
descriptor; the `catch` branch returns the empty descriptor `{}`. -/
def extractQualityFromUrl (url : String) : QualityInfo :=
  match parseURL url with
  | some u => buildQualityInfo (parseUrlEncoded u.query)
  | none => {}

/-! ### JavaScript numbers, `parseInt`, `Math.round`

A JavaScript number reached by this service is either `NaN` (from a failed
`parseInt`) or an exact rational: the only operations are integer
multiplication and division by the nonzero constants 10, 1000, 1000000, 8,
so `Option ℚ` (with `none` for `NaN`, which every arithmetic operation
propagates) models this fragment exactly. -/

/-- JavaScript numbers on the fragment this service uses. -/
abbrev JNum := Option ℚ

/-- Addition, propagating `NaN`. -/
def jadd : JNum → JNum → JNum
  | some a, some b => some (a + b)
  | _, _ => none

/-- Multiplication, propagating `NaN`. -/
def jmul : JNum → JNum → JNum
  | some a, some b => some (a * b)
  | _, _ => none

/-- Division by a (nonzero) constant, propagating `NaN`. -/
def jdivC (a : JNum) (c : ℚ) : JNum :=
  match a with
  | some a => some (a / c)
  | none => none

/-- A JavaScript whitespace or line-terminator code point
(what `parseInt` strips from the front of its argument). -/
def isJsWhitespace (c : Char) : Bool :=
  let n := c.toNat
  (9 ≤ n && n ≤ 13) || n == 32 || n == 160 || n == 5760 ||
  (8192 ≤ n && n ≤ 8202) || n == 8232 || n == 8233 || n == 8239 ||
  n == 8287 || n == 12288 || n == 65279

/-- Digit value of a character in the given radix (`parseInt` accepts
`0-9`, `a-z`, `A-Z` as long as the value is below the radix). -/
def digitValRadix (radix : Nat) (c : Char) : Option Nat :=
  let v :=
    if '0' ≤ c && c ≤ '9' then some (c.toNat - 48)
    else if 'a' ≤ c && c ≤ 'z' then some (c.toNat - 87)
    else if 'A' ≤ c && c ≤ 'Z' then some (c.toNat - 55)
    else none
  match v with
  | some n => if n < radix then some n else none
  | none => none

/-- JavaScript `parseInt(s)` with no radix argument: strip leading
whitespace, take an optional sign, switch to radix 16 after a `0x`/`0X`
head, read the longest prefix of digits (no digit at all gives `NaN`,
modelled as `none`). Huge inputs lose precision to float64 in JavaScript;
this model is exact, and agrees on every value within float64's exact
integer range. -/
def parseIntJS (s : String) : Option Int :=
  let cs := s.data.dropWhile isJsWhitespace
  let signed : Int × List Char :=
    match cs with
    | '-' :: r => (-1, r)
    | '+' :: r => (1, r)
    | _ => (1, cs)
  let based : Nat × List Char :=
    match signed.2 with
    | '0' :: 'x' :: r => (16, r)
    | '0' :: 'X' :: r => (16, r)
    | _ => (10, signed.2)
  let ds := ((based.2.map (digitValRadix based.1)).takeWhile
    Option.isSome).filterMap id
  if ds.isEmpty then none
  else some (signed.1 * (ds.foldl (fun a d => a * based.1 + d) 0 : Nat))

/-- `parseInt` lifted to a possibly-absent attribute
(`parseInt(undefined)` is `NaN`), as a JavaScript number. -/
def jparse (o : Option String) : JNum :=
  match o with
  | some v => (parseIntJS v).map fun i => (i : ℚ)
  | none => none

/-- JavaScript `Math.round`: `⌊x + 1/2⌋` on finite values (ties go up,
also for negatives), `NaN` on `NaN`; the result is integral, so it is
modelled as an optional integer. -/
def mathRound (x : JNum) : Option Int :=
  x.map fun q => Int.floor (q + 1 / 2)

/-- String interpolation `${x}` of an integral-or-`NaN` number. -/
def jnumIntToString : Option Int → String
  | none => "NaN"
  | some i => toString i

/-! ### `getQualityScore`, `getQualityDescription`, hashing, metrics -/

/-- `getQualityScore` (lines 159–179): sum of bitrate/1000,
width·height/1000 and audioBitrate/10, each guarded by truthiness of its
source attributes; a failed `parseInt` inside a taken branch makes the
whole sum `NaN`. -/
def getQualityScore (q : QualityInfo) : JNum :=
  let score : JNum := some 0
  let score :=
    if truthy q.maxVideoBitrate then
      jadd score (jdivC (jparse q.maxVideoBitrate) 1000)
    else score
  let score :=
    if truthy q.maxWidth && truthy q.maxHeight then
      jadd score (jdivC (jmul (jparse q.maxWidth) (jparse q.maxHeight)) 1000)
    else score
  let score :=
    if truthy q.audioBitrate then
      jadd score (jdivC (jparse q.audioBitrate) 10)
    else score
  score

/-- `getQualityDescription` (lines 103–147): build the segment list in
source order and join with single spaces; `"Unknown Quality"` when no
segment applies. `toUpperCase` is modelled by `strUpper` (the ASCII case
mapping, which coincides with JavaScript's on the ASCII codec names this
field carries). -/
def getQualityDescription (q : QualityInfo) : String :=
  let parts : List String := []
  let parts :=
    if truthy q.maxWidth && truthy q.maxHeight then
      parts ++ [q.maxWidth.getD "" ++ "x" ++ q.maxHeight.getD ""]
    else parts
  let parts :=
    if truthy q.maxVideoBitrate then
      parts ++ [jnumIntToString
        (mathRound (jdivC (jparse q.maxVideoBitrate) 1000000)) ++ "Mbps"]
    else parts
  let parts :=
    if truthy q.videoCodec then parts ++ [strUpper (q.videoCodec.getD "")]
    else parts
  let parts :=
    if truthy q.audioCodec then
      let audioPart := strUpper (q.audioCodec.getD "")
      let audioPart :=
        if truthy q.audioLanguage then
          audioPart ++ " (" ++ q.audioLanguage.getD "" ++ ")"
        else audioPart
      let audioPart :=
        if truthy q.audioStreamIndex then
          audioPart ++ " [Track " ++ q.audioStreamIndex.getD "" ++ "]"
        else audioPart
      parts ++ [audioPart]
    else parts
  let parts :=
    if truthy q.subtitleStreamIndex || truthy q.subtitleLanguage then
      let subPart := "Subs"
      let subPart :=
        if truthy q.subtitleLanguage then
          subPart ++ " (" ++ q.subtitleLanguage.getD "" ++ ")"
        else subPart
      let subPart :=
        if truthy q.subtitleStreamIndex then
          subPart ++ " [Track " ++ q.subtitleStreamIndex.getD "" ++ "]"
        else subPart
      parts ++ [subPart]
    else parts
  if parts.length > 0 then String.intercalate " " parts else "Unknown Quality"

/-- JSON string-character escaping as performed by `JSON.stringify`. -/
def jsonEscapeChar (c : Char) : List Char :=
  if c == '"' then ['\\', '"']
  else if c == '\\' then ['\\', '\\']
  else if c.toNat == 8 then ['\\', 'b']
  else if c == '\t' then ['\\', 't']
  else if c == '\n' then ['\\', 'n']
  else if c.toNat == 12 then ['\\', 'f']
  else if c == '\r' then ['\\', 'r']
  else if c.toNat < 32 then
    ['\\', 'u', '0', '0', hexDigit (c.toNat / 16), hexDigit (c.toNat % 16)]
  else [c]

/-- A JSON string literal (`JSON.stringify` of a string value). -/
def jsonQuote (s : String) : String :=
  "\"" ++ String.mk (s.data.map jsonEscapeChar).flatten ++ "\""

/-- `Object.keys(q).sort()` paired with the values, keeping only present
keys: the key vocabulary is the fixed field set of `QualityInfo`, and this
list enumerates it in its (static) lexicographic UTF-16 order, which is
what JavaScript's default array sort produces on these ASCII names. -/
def sortedPairs (q : QualityInfo) : List (String × String) :=
  ([("audioBitrate", q.audioBitrate),
    ("audioChannels", q.audioChannels),
    ("audioCodec", q.audioCodec),
    ("audioLanguage", q.audioLanguage),
    ("audioSampleRate", q.audioSampleRate),
    ("audioStreamIndex", q.audioStreamIndex),
    ("container", q.container),
    ("deviceId", q.deviceId),
    ("maxAudioChannels", q.maxAudioChannels),
    ("maxFramerate", q.maxFramerate),
    ("maxHeight", q.maxHeight),
    ("maxVideoBitrate", q.maxVideoBitrate),
    ("maxWidth", q.maxWidth),
    ("mediaSourceId", q.mediaSourceId),
    ("playSessionId", q.playSessionId),
    ("profile", q.profile),
    ("segmentContainer", q.segmentContainer),
    ("startTimeTicks", q.startTimeTicks),
    ("subtitleCodec", q.subtitleCodec),
    ("subtitleLanguage", q.subtitleLanguage),
    ("subtitleMethod", q.subtitleMethod),
    ("subtitleStreamIndex", q.subtitleStreamIndex),
    ("transcodingMaxAudioChannels", q.transcodingMaxAudioChannels),
    ("videoBitDepth", q.videoBitDepth),
    ("videoCodec", q.videoCodec),
    ("videoLevel", q.videoLevel)]).filterMap fun p => p.2.map fun v => (p.1, v)

/-- The keys line 84 excludes from the hash. -/
def sessionKeys : List String := ["deviceId", "playSessionId", "mediaSourceId"]

/-- The canonical serialization hashed by `generateQualityHash`:
`JSON.stringify` of the sorted-key object with the session keys skipped
(string values only, so the serialization is
`{"k1":"v1",...,"kn":"vn"}`). -/
def qualityString (q : QualityInfo) : String :=
  let sortedQuality := (sortedPairs q).filter fun p => !(sessionKeys.contains p.1)
  "\x7b" ++ String.intercalate ","
    (sortedQuality.map fun p => jsonQuote p.1 ++ ":" ++ jsonQuote p.2) ++ "\x7d"

/-- `generateQualityHash` (lines 76–98): the first 12 characters of the
lowercase hex MD5 digest of the canonical serialization. -/
def generateQualityHash (q : QualityInfo) : String :=
  (hexOfBytes (md5Bytes (strBytes (qualityString q)))).take 12

/-- `areQualitiesEqual` (lines 152–154): hash-string equality (`===`). -/
def areQualitiesEqual (q1 q2 : QualityInfo) : Bool :=
  generateQualityHash q1 == generateQualityHash q2

/-- The `QualityMetrics` interface. -/
structure QualityMetrics where
  score : JNum
  description : String
  estimatedSize : JNum
deriving Repr, DecidableEq

/-- `getQualityMetrics` (lines 184–201): score, description and the
two-hour size estimate `(parseInt(maxVideoBitrate)/1000) * 7200 * 1000 / 8`
(0 when the bitrate attribute is not truthy). -/
def getQualityMetrics (q : QualityInfo) : QualityMetrics :=
  let score := getQualityScore q
  let description := getQualityDescription q
  let estimatedSize : JNum :=
    if truthy q.maxVideoBitrate then
      let bitrateKbps := jdivC (jparse q.maxVideoBitrate) 1000
      jdivC (jmul (jmul bitrateKbps (some 7200)) (some 1000)) 8
    else some 0
  { score := score, description := description, estimatedSize := estimatedSize }

/-! ### Specification-side definitions

These definitions follow the wording of the specification (not the code);
the theorems below compare them with the embedded code. -/

/-- Two descriptors contain the same attribute/value pairs for every
attribute other than the three session fields (`deviceId`,
`playSessionId`, `mediaSourceId`). -/
def sameNonSession (q1 q2 : QualityInfo) : Prop :=
  q1.maxVideoBitrate = q2.maxVideoBitrate ∧ q1.videoCodec = q2.videoCodec ∧
  q1.maxWidth = q2.maxWidth ∧ q1.maxHeight = q2.maxHeight ∧
  q1.videoLevel = q2.videoLevel ∧ q1.profile = q2.profile ∧
  q1.maxFramerate = q2.maxFramerate ∧ q1.videoBitDepth = q2.videoBitDepth ∧
  q1.audioCodec = q2.audioCodec ∧ q1.audioChannels = q2.audioChannels ∧
  q1.audioBitrate = q2.audioBitrate ∧ q1.audioSampleRate = q2.audioSampleRate ∧
  q1.container = q2.container ∧ q1.segmentContainer = q2.segmentContainer ∧
  q1.subtitleCodec = q2.subtitleCodec ∧
  q1.audioStreamIndex = q2.audioStreamIndex ∧
  q1.subtitleStreamIndex = q2.subtitleStreamIndex ∧
  q1.audioLanguage = q2.audioLanguage ∧
  q1.subtitleLanguage = q2.subtitleLanguage ∧
  q1.maxAudioChannels = q2.maxAudioChannels ∧
  q1.transcodingMaxAudioChannels = q2.transcodingMaxAudioChannels ∧
  q1.subtitleMethod = q2.subtitleMethod ∧ q1.startTimeTicks = q2.startTimeTicks

instance (q1 q2 : QualityInfo) : Decidable (sameNonSession q1 q2) := by
  unfold sameNonSession
  infer_instance

/-- The spec's prioritized-spelling rule: the first non-empty value among
an ordered list of looked-up spellings, and no entry at all when no
accepted spelling has a non-empty value. -/
def firstNonEmpty : List (Option String) → Option String
  | [] => none
  | none :: rest => firstNonEmpty rest
  | some s :: rest => if s = "" then firstNonEmpty rest else some s

/-- The data model's well-formedness invariant: absent attributes are never
represented, so no present attribute carries the empty-string placeholder
(the extractor can never produce one). -/
def wellFormed (q : QualityInfo) : Prop :=
  q.maxVideoBitrate ≠ some "" ∧ q.videoCodec ≠ some "" ∧
  q.maxWidth ≠ some "" ∧ q.maxHeight ≠ some "" ∧
  q.videoLevel ≠ some "" ∧ q.profile ≠ some "" ∧
  q.maxFramerate ≠ some "" ∧ q.videoBitDepth ≠ some "" ∧
  q.audioCodec ≠ some "" ∧ q.audioChannels ≠ some "" ∧
  q.audioBitrate ≠ some "" ∧ q.audioSampleRate ≠ some "" ∧
  q.container ≠ some "" ∧ q.segmentContainer ≠ some "" ∧
  q.subtitleCodec ≠ some "" ∧ q.audioStreamIndex ≠ some "" ∧
  q.subtitleStreamIndex ≠ some "" ∧ q.audioLanguage ≠ some "" ∧
  q.subtitleLanguage ≠ some "" ∧ q.maxAudioChannels ≠ some "" ∧
  q.transcodingMaxAudioChannels ≠ some "" ∧ q.subtitleMethod ≠ some "" ∧
  q.startTimeTicks ≠ some "" ∧ q.mediaSourceId ≠ some "" ∧
  q.deviceId ≠ some "" ∧ q.playSessionId ≠ some ""

instance (q : QualityInfo) : Decidable (wellFormed q) := by
  unfold wellFormed
  infer_instance

/-- The spec's bitrate term: `maxVideoBitrate / 1000` (kbps), 0 when the
attribute is absent or does not parse. -/
def specBitrateTerm (q : QualityInfo) : ℚ :=
  match q.maxVideoBitrate with
  | some v =>
    match parseIntJS v with
    | some n => (n : ℚ) / 1000
    | none => 0
  | none => 0

/-- The spec's resolution term: `maxWidth · maxHeight / 1000`, 0 when a
source attribute is absent or does not parse. -/
def specPixelTerm (q : QualityInfo) : ℚ :=
  match q.maxWidth, q.maxHeight with
  | some w, some h =>
    (match parseIntJS w, parseIntJS h with
     | some nw, some nh => (nw : ℚ) * nh / 1000
     | _, _ => 0)
  | _, _ => 0

/-- The spec's audio term: `audioBitrate / 10`, 0 when the attribute is
absent or does not parse. -/
def specAudioTerm (q : QualityInfo) : ℚ :=
  match q.audioBitrate with
  | some v =>
    match parseIntJS v with
    | some n => (n : ℚ) / 10
    | none => 0
  | none => 0

/-- The spec's scoring formula (§4.4): bitrate/1000 + width·height/1000 +
audioBitrate/10, each term 0 when its source attributes are absent or do
not parse. -/
def specScore (q : QualityInfo) : ℚ :=
  specBitrateTerm q + specPixelTerm q + specAudioTerm q

/-- The spec's formatter (§4.5): an ordered list of optional segments —
resolution, bitrate in whole Mbps, upper-cased video codec, audio summary,
subtitle summary — of which the present ones are joined by single spaces;
`"Unknown Quality"` when no segment applies. -/
def describeSpec (q : QualityInfo) : String :=
  let segs : List (Option String) := [
    (match q.maxWidth, q.maxHeight with
     | some w, some h => some (w ++ "x" ++ h)
     | _, _ => none),
    q.maxVideoBitrate.map fun v =>
      jnumIntToString (mathRound (jdivC (jparse (some v)) 1000000)) ++ "Mbps",
    q.videoCodec.map strUpper,
    q.audioCodec.map fun c =>
      strUpper c ++ ((q.audioLanguage.map fun l => " (" ++ l ++ ")").getD "") ++
        ((q.audioStreamIndex.map fun i => " [Track " ++ i ++ "]").getD ""),
    (if q.subtitleStreamIndex.isSome || q.subtitleLanguage.isSome then
      some ("Subs" ++ ((q.subtitleLanguage.map fun l => " (" ++ l ++ ")").getD "") ++
        ((q.subtitleStreamIndex.map fun i => " [Track " ++ i ++ "]").getD ""))
     else none)]
  let parts := segs.filterMap id
  if parts.isEmpty then "Unknown Quality" else String.intercalate " " parts

/-! ### Concrete descriptors and URLs used by the theorems -/

/-- The worked example of spec §8: all seven quality fields. -/
def exDesc : QualityInfo :=
  { maxVideoBitrate := some "8000000", maxWidth := some "1920",
    maxHeight := some "1080", videoCodec := some "h264",
    audioCodec := some "aac", audioLanguage := some "eng",
    audioStreamIndex := some "2" }

/-- First element of a truncated-MD5 collision pair: its canonical
serialization and that of `qCollB` are different one-field objects whose
MD5 digests share their first 12 hex characters. -/
def qCollA : QualityInfo := { videoCodec := some "v110df9" }

/-- Second element of the truncated-MD5 collision pair. -/
def qCollB : QualityInfo := { videoCodec := some "v12fa5cd" }

/-- A descriptor with one quality field and one session field. -/
def qSessA : QualityInfo :=
  { videoCodec := some "h264", deviceId := some "device-a" }

/-- Same non-session content as `qSessA`, all three session fields
different. -/
def qSessB : QualityInfo :=
  { videoCodec := some "h264", deviceId := some "device-b",
    playSessionId := some "p1", mediaSourceId := some "m1" }

/-- A descriptor whose max video bitrate is present but not numeric, with
parseable resolution attributes alongside. -/
def qBadParse : QualityInfo :=
  { maxVideoBitrate := some "abc", maxWidth := some "1920",
    maxHeight := some "1080" }

/-- A descriptor whose max video bitrate parses to a negative integer. -/
def qNegRate : QualityInfo := { maxVideoBitrate := some "-8000" }

end QualityService

namespace QualityService

/-! ### Helper lemmas -/

set_option maxRecDepth 10000 in
/-- Sanity check of the MD5 embedding against the RFC 1321 test vector. -/
theorem md5_rfc_vector :
    hexOfBytes (md5Bytes (strBytes "abc")) =
      "900150983cd24fb0d6963f7d28e17f72" := by
  decide

theorem truthy_none_eq : truthy none = false := rfl

theorem truthy_some_of_ne (s : String) (h : s ≠ "") :
    truthy (some s) = true := by
  simp [truthy, h]

/-- A successfully parsed value is a non-empty string, hence truthy. -/
theorem truthy_of_parse (v : String) (h : (parseIntJS v).isSome) :
    truthy (some v) = true := by
  by_cases hv : v = ""
  · subst hv
    exact absurd h (by decide)
  · exact truthy_some_of_ne v hv

/-- The code's `a || b || undefined` chain is the spec's first-non-empty
rule over the two accepted spellings. -/
theorem orParam_eq_firstNonEmpty (a b : Option String) :
    orParam a b = firstNonEmpty [a, b] := by
  rcases a with _ | s <;> rcases b with _ | t
  · rfl
  · by_cases ht : t = "" <;> simp [orParam, truthy, firstNonEmpty, ht]
  · by_cases hs : s = "" <;> simp [orParam, truthy, firstNonEmpty, hs]
  · by_cases hs : s = "" <;> by_cases ht : t = "" <;>
      simp [orParam, truthy, firstNonEmpty, hs, ht]

/-- The code's `a || undefined` is the spec's first-non-empty rule over a
single accepted spelling. -/
theorem orSingle_eq_firstNonEmpty (a : Option String) :
    orSingle a = firstNonEmpty [a] := by
  rcases a with _ | s
  · rfl
  · by_cases hs : s = "" <;> simp [orSingle, truthy, firstNonEmpty, hs]

theorem sessionDrop_deviceId (x : Option String) :
    (Option.map (fun v => ("deviceId", v)) x).filter
      (fun p => !(sessionKeys.contains p.1)) = none := by
  cases x <;> rfl

theorem sessionDrop_mediaSourceId (x : Option String) :
    (Option.map (fun v => ("mediaSourceId", v)) x).filter
      (fun p => !(sessionKeys.contains p.1)) = none := by
  cases x <;> rfl

theorem sessionDrop_playSessionId (x : Option String) :
    (Option.map (fun v => ("playSessionId", v)) x).filter
      (fun p => !(sessionKeys.contains p.1)) = none := by
  cases x <;> rfl

/-- The canonical serialization never depends on the three session
fields: erasing them changes nothing (they are filtered out of the sorted
pair list before `JSON.stringify`). -/
theorem qualityString_session_blind (q : QualityInfo) :
    qualityString q =
      qualityString { q with mediaSourceId := none, deviceId := none, playSessionId := none } := by
  obtain ⟨mvb, vc, mw, mh, vl, pr, mf, vbd, ac, ach, ab, asr, co, sgc, suc,
    asi, ssi, al, sl, mac, tmac, sm, stt, ms, dv, ps⟩ := q
  simp only [qualityString, sortedPairs]
  simp only [List.filter_filterMap]
  simp only [List.filterMap_cons, sessionDrop_deviceId,
    sessionDrop_mediaSourceId, sessionDrop_playSessionId]

/-- The hash never depends on the three session fields. -/
theorem hash_session_blind (q : QualityInfo) :
    generateQualityHash q =
      generateQualityHash { q with mediaSourceId := none, deviceId := none, playSessionId := none } := by
  simp only [generateQualityHash, qualityString_session_blind q]

/-! ### The claims -/

set_option maxRecDepth 40000 in
/-- C1, counterexample: the claim's forward direction fails — these two
descriptors differ in the non-session attribute `videoCodec`, yet their
12-character truncated MD5 keys coincide (a birthday collision of the
48-bit truncated hash). -/
theorem c1_hash_collision :
    generateQualityHash qCollA = generateQualityHash qCollB ∧
    ¬ sameNonSession qCollA qCollB := by
  constructor
  · decide
  · decide

/-- C1, amended: descriptors that agree on every attribute other than the
three session fields always get the same key (so keys are blind to
`deviceId`, `playSessionId`, `mediaSourceId`); the converse implication
does not hold for the 12-character truncated hash. -/
theorem c1_hash_agrees_on_non_session (q1 q2 : QualityInfo)
    (h : sameNonSession q1 q2) :
    generateQualityHash q1 = generateQualityHash q2 := by
  suffices hq : qualityString q1 = qualityString q2 by
    simp [generateQualityHash, hq]
  rw [qualityString_session_blind q1, qualityString_session_blind q2]
  obtain ⟨e1, e2, e3, e4, e5, e6, e7, e8, e9, e10, e11, e12, e13, e14, e15,
    e16, e17, e18, e19, e20, e21, e22, e23⟩ := h
  obtain ⟨mvb, vc, mw, mh, vl, pr, mf, vbd, ac, ach, ab, asr, co, sgc, suc,
    asi, ssi, al, sl, mac, tmac, sm, stt, ms, dv, ps⟩ := q1
  obtain ⟨mvb2, vc2, mw2, mh2, vl2, pr2, mf2, vbd2, ac2, ach2, ab2, asr2,
    co2, sgc2, suc2, asi2, ssi2, al2, sl2, mac2, tmac2, sm2, stt2, ms2,
    dv2, ps2⟩ := q2
  have he : (⟨mvb, vc, mw, mh, vl, pr, mf, vbd, ac, ach, ab, asr, co, sgc,
      suc, asi, ssi, al, sl, mac, tmac, sm, stt, none, none, none⟩ :
        QualityInfo) =
      ⟨mvb2, vc2, mw2, mh2, vl2, pr2, mf2, vbd2, ac2, ach2, ab2, asr2, co2,
        sgc2, suc2, asi2, ssi2, al2, sl2, mac2, tmac2, sm2, stt2, none,
        none, none⟩ := by
    simp only [QualityInfo.mk.injEq]
    exact ⟨e1, e2, e3, e4, e5, e6, e7, e8, e9, e10, e11, e12, e13, e14,
      e15, e16, e17, e18, e19, e20, e21, e22, e23, trivial, trivial,
      trivial⟩
  exact congrArg qualityString he

set_option maxRecDepth 40000 in
/-- C1, witness: two concrete descriptors agreeing on everything except
the session fields, with equal keys via the amended theorem. -/
theorem c1_hash_agrees_on_non_session_witness :
    sameNonSession qSessA qSessB ∧
    generateQualityHash qSessA = generateQualityHash qSessB :=
  ⟨by decide, c1_hash_agrees_on_non_session qSessA qSessB (by decide)⟩

set_option maxRecDepth 40000 in
/-- C2: the claim's zero-substitution policy is what the spec prescribes,
but the code lets the `NaN` of a failed `parseInt` poison the whole sum:
at `qBadParse` (bitrate `"abc"`, resolution 1920×1080) the code's score
and estimated size are `NaN` (`none`) — not the `2073.6` the claim's
per-term-zero rule (computed by `specScore`) would give. -/
theorem c2_nan_poisons_score :
    getQualityScore qBadParse = none ∧
    (getQualityMetrics qBadParse).estimatedSize = none ∧
    getQualityScore qBadParse ≠ some (2073.6 : ℚ) ∧
    specScore qBadParse = 2073.6 := by
  refine ⟨by decide, by decide, by decide, ?_⟩
  have hw : parseIntJS "1920" = some 1920 := by decide
  have hh : parseIntJS "1080" = some 1080 := by decide
  have hb : parseIntJS "abc" = none := by decide
  simp only [specScore, specBitrateTerm, specPixelTerm, specAudioTerm,
    qBadParse, hw, hh, hb]
  norm_num

set_option maxRecDepth 40000 in
/-- C3, counterexample: a bare query component is not an absolute URL, so
`new URL` throws and the catch branch returns the empty descriptor — not
the descriptor extracted from a full request URL carrying that query. -/
theorem c3_bare_query_empty :
    extractQualityFromUrl "maxWidth=1920&maxHeight=1080" = {} ∧
    (extractQualityFromUrl "maxWidth=1920&maxHeight=1080").maxWidth = none ∧
    extractQualityFromUrl
        "http://example.com/videos/1/stream.m3u8?maxWidth=1920&maxHeight=1080" ≠
      extractQualityFromUrl "maxWidth=1920&maxHeight=1080" := by
  refine ⟨by decide, by decide, by decide⟩

set_option maxRecDepth 40000 in
/-- C3, amended: a bare query component fails URL parsing and yields the
empty descriptor; the query's attributes are extracted only from a full
request URL carrying that query. -/
theorem c3_bare_query_amended :
    parseURL "maxWidth=1920&maxHeight=1080" = none ∧
    extractQualityFromUrl "maxWidth=1920&maxHeight=1080" = {} ∧
    (extractQualityFromUrl
      "http://example.com/videos/1/stream.m3u8?maxWidth=1920&maxHeight=1080").maxWidth =
      some "1920" ∧
    (extractQualityFromUrl
      "http://example.com/videos/1/stream.m3u8?maxWidth=1920&maxHeight=1080").maxHeight =
      some "1080" := by
  refine ⟨by decide, by decide, by decide, by decide⟩

/-- C4: `extractQualityFromUrl` is total — in this embedding the `URL`
constructor's failure is `parseURL url = none`, and on every such input
the catch branch returns the empty descriptor. -/
theorem c4_extract_total (url : String) (h : parseURL url = none) :
    extractQualityFromUrl url = {} := by
  simp [extractQualityFromUrl, h]

set_option maxRecDepth 40000 in
/-- C4, witness: a string that is not parseable as a URL yields the empty
descriptor. -/
theorem c4_extract_total_witness :
    parseURL "not a url" = none ∧ extractQualityFromUrl "not a url" = {} :=
  ⟨by decide, c4_extract_total "not a url" (by decide)⟩

/-- C5: for every parsed URL, each dual-spelling attribute binds to the
first non-empty value among its lower-camel and capitalized query
parameters (in that order), each stream-selection attribute binds only to
its lower-camel parameter, and an attribute with no non-empty accepted
spelling has no entry in the descriptor. -/
theorem c5_spelling_rule (url : String) (u : ParsedURL)
    (ps : List (String × String)) (h : parseURL url = some u)
    (hps : ps = parseUrlEncoded u.query) :
    (extractQualityFromUrl url).maxVideoBitrate =
      firstNonEmpty [getParam ps "maxVideoBitrate", getParam ps "MaxVideoBitrate"] ∧
    (extractQualityFromUrl url).videoCodec =
      firstNonEmpty [getParam ps "videoCodec", getParam ps "VideoCodec"] ∧
    (extractQualityFromUrl url).maxWidth =
      firstNonEmpty [getParam ps "maxWidth", getParam ps "MaxWidth"] ∧
    (extractQualityFromUrl url).maxHeight =
      firstNonEmpty [getParam ps "maxHeight", getParam ps "MaxHeight"] ∧
    (extractQualityFromUrl url).videoLevel =
      firstNonEmpty [getParam ps "videoLevel", getParam ps "VideoLevel"] ∧
    (extractQualityFromUrl url).profile =
      firstNonEmpty [getParam ps "profile", getParam ps "Profile"] ∧
    (extractQualityFromUrl url).maxFramerate =
      firstNonEmpty [getParam ps "maxFramerate", getParam ps "MaxFramerate"] ∧
    (extractQualityFromUrl url).videoBitDepth =
      firstNonEmpty [getParam ps "videoBitDepth", getParam ps "VideoBitDepth"] ∧
    (extractQualityFromUrl url).audioCodec =
      firstNonEmpty [getParam ps "audioCodec", getParam ps "AudioCodec"] ∧
    (extractQualityFromUrl url).audioChannels =
      firstNonEmpty [getParam ps "audioChannels", getParam ps "AudioChannels"] ∧
    (extractQualityFromUrl url).audioBitrate =
      firstNonEmpty [getParam ps "audioBitrate", getParam ps "AudioBitrate"] ∧
    (extractQualityFromUrl url).audioSampleRate =
      firstNonEmpty [getParam ps "audioSampleRate", getParam ps "AudioSampleRate"] ∧
    (extractQualityFromUrl url).container =
      firstNonEmpty [getParam ps "container", getParam ps "Container"] ∧
    (extractQualityFromUrl url).segmentContainer =
      firstNonEmpty [getParam ps "segmentContainer", getParam ps "SegmentContainer"] ∧
    (extractQualityFromUrl url).subtitleCodec =
      firstNonEmpty [getParam ps "subtitleCodec", getParam ps "SubtitleCodec"] ∧
    (extractQualityFromUrl url).audioStreamIndex =
      firstNonEmpty [getParam ps "audioStreamIndex"] ∧
    (extractQualityFromUrl url).subtitleStreamIndex =
      firstNonEmpty [getParam ps "subtitleStreamIndex"] ∧
    (extractQualityFromUrl url).audioLanguage =
      firstNonEmpty [getParam ps "audioLanguage"] ∧
    (extractQualityFromUrl url).subtitleLanguage =
      firstNonEmpty [getParam ps "subtitleLanguage"] ∧
    (extractQualityFromUrl url).maxAudioChannels =
      firstNonEmpty [getParam ps "maxAudioChannels"] ∧
    (extractQualityFromUrl url).transcodingMaxAudioChannels =
      firstNonEmpty [getParam ps "transcodingMaxAudioChannels"] ∧
    (extractQualityFromUrl url).subtitleMethod =
      firstNonEmpty [getParam ps "subtitleMethod"] ∧
    (extractQualityFromUrl url).startTimeTicks =
      firstNonEmpty [getParam ps "startTimeTicks"] := by
  subst hps
  simp only [extractQualityFromUrl, h]
  exact ⟨orParam_eq_firstNonEmpty _ _, orParam_eq_firstNonEmpty _ _,
    orParam_eq_firstNonEmpty _ _, orParam_eq_firstNonEmpty _ _,
    orParam_eq_firstNonEmpty _ _, orParam_eq_firstNonEmpty _ _,
    orParam_eq_firstNonEmpty _ _, orParam_eq_firstNonEmpty _ _,
    orParam_eq_firstNonEmpty _ _, orParam_eq_firstNonEmpty _ _,
    orParam_eq_firstNonEmpty _ _, orParam_eq_firstNonEmpty _ _,
    orParam_eq_firstNonEmpty _ _, orParam_eq_firstNonEmpty _ _,
    orParam_eq_firstNonEmpty _ _, orSingle_eq_firstNonEmpty _,
    orSingle_eq_firstNonEmpty _, orSingle_eq_firstNonEmpty _,
    orSingle_eq_firstNonEmpty _, orSingle_eq_firstNonEmpty _,
    orSingle_eq_firstNonEmpty _, orSingle_eq_firstNonEmpty _,
    orSingle_eq_firstNonEmpty _⟩

set_option maxRecDepth 40000 in
/-- C5, witness: on a URL exercising the fallback (`videoCodec=` empty so
`VideoCodec=h264` wins), the capitalized-only fallback for a dual
attribute (`AudioBitrate=128000`), a lower-camel stream-selection
attribute (`audioStreamIndex=2`) and an absent attribute
(`subtitleMethod`). -/
theorem c5_spelling_rule_witness :
    (extractQualityFromUrl
      "http://example.com/v?videoCodec=&VideoCodec=h264&audioStreamIndex=2&AudioBitrate=128000").videoCodec =
      some "h264" ∧
    (extractQualityFromUrl
      "http://example.com/v?videoCodec=&VideoCodec=h264&audioStreamIndex=2&AudioBitrate=128000").audioBitrate =
      some "128000" ∧
    (extractQualityFromUrl
      "http://example.com/v?videoCodec=&VideoCodec=h264&audioStreamIndex=2&AudioBitrate=128000").audioStreamIndex =
      some "2" ∧
    (extractQualityFromUrl
      "http://example.com/v?videoCodec=&VideoCodec=h264&audioStreamIndex=2&AudioBitrate=128000").subtitleMethod =
      none := by
  obtain ⟨h1, h2, h3, h4, h5, h6, h7, h8, h9, h10, h11, h12, h13, h14, h15,
    h16, h17, h18, h19, h20, h21, h22, h23⟩ :=
    c5_spelling_rule
      "http://example.com/v?videoCodec=&VideoCodec=h264&audioStreamIndex=2&AudioBitrate=128000"
      ⟨"http", "example.com", "/v",
        "videoCodec=&VideoCodec=h264&audioStreamIndex=2&AudioBitrate=128000", ""⟩
      (parseUrlEncoded
        "videoCodec=&VideoCodec=h264&audioStreamIndex=2&AudioBitrate=128000")
      (by decide) rfl
  exact ⟨h2.trans (by decide), h11.trans (by decide), h16.trans (by decide),
    h22.trans (by decide)⟩

/-- C10: the three session identifiers are recognized in URLs only under
their capitalized spellings — the extracted lower-camel descriptor fields
depend only on the `MediaSourceId`/`DeviceId`/`PlaySessionId` query
parameters (a lower-camel `deviceId=x` with no capitalized form leaves no
entry) — and the hash's lower-camel exclusion list removes exactly those
descriptor fields: erasing them never changes the key. -/
theorem c10_session_spelling (url : String) (u : ParsedURL)
    (ps : List (String × String)) (h : parseURL url = some u)
    (hps : ps = parseUrlEncoded u.query) :
    ((extractQualityFromUrl url).mediaSourceId =
      firstNonEmpty [getParam ps "MediaSourceId"] ∧
     (extractQualityFromUrl url).deviceId =
      firstNonEmpty [getParam ps "DeviceId"] ∧
     (extractQualityFromUrl url).playSessionId =
      firstNonEmpty [getParam ps "PlaySessionId"]) ∧
    ∀ q : QualityInfo, generateQualityHash q =
      generateQualityHash { q with mediaSourceId := none, deviceId := none, playSessionId := none } := by
  subst hps
  simp only [extractQualityFromUrl, h]
  exact ⟨⟨orSingle_eq_firstNonEmpty _, orSingle_eq_firstNonEmpty _,
    orSingle_eq_firstNonEmpty _⟩, hash_session_blind⟩

set_option maxRecDepth 40000 in
/-- C10, witness: lower-camel session spellings in the URL leave no entry;
the capitalized spelling is stored under the lower-camel key. -/
theorem c10_session_spelling_witness :
    (extractQualityFromUrl
      "http://example.com/v?deviceId=lower&playSessionId=p&MediaSourceId=m1").deviceId =
      none ∧
    (extractQualityFromUrl
      "http://example.com/v?deviceId=lower&playSessionId=p&MediaSourceId=m1").playSessionId =
      none ∧
    (extractQualityFromUrl
      "http://example.com/v?deviceId=lower&playSessionId=p&MediaSourceId=m1").mediaSourceId =
      some "m1" := by
  obtain ⟨⟨hm, hd, hp⟩, _⟩ :=
    c10_session_spelling
      "http://example.com/v?deviceId=lower&playSessionId=p&MediaSourceId=m1"
      ⟨"http", "example.com", "/v",
        "deviceId=lower&playSessionId=p&MediaSourceId=m1", ""⟩
      (parseUrlEncoded "deviceId=lower&playSessionId=p&MediaSourceId=m1")
      (by decide) rfl
  exact ⟨hd.trans (by decide), hp.trans (by decide), hm.trans (by decide)⟩

/-- The code's conditional ` (language)` suffix equals the spec's
optional-segment form, for well-formed (non-empty-placeholder) values. -/
theorem optSuffix_paren (base : String) (o : Option String)
    (ho : o ≠ some "") :
    (if truthy o then base ++ " (" ++ o.getD "" ++ ")" else base) =
      base ++ ((o.map fun l => " (" ++ l ++ ")").getD "") := by
  rcases o with _ | s
  · simp [truthy_none_eq]
  · have hs : s ≠ "" := fun e => ho (by rw [e])
    simp [truthy_some_of_ne s hs, String.append_assoc]

/-- The code's conditional ` [Track i]` suffix equals the spec's
optional-segment form, for well-formed values. -/
theorem optSuffix_track (base : String) (o : Option String)
    (ho : o ≠ some "") :
    (if truthy o then base ++ " [Track " ++ o.getD "" ++ "]" else base) =
      base ++ ((o.map fun i => " [Track " ++ i ++ "]").getD "") := by
  rcases o with _ | s
  · simp [truthy_none_eq]
  · have hs : s ≠ "" := fun e => ho (by rw [e])
    simp [truthy_some_of_ne s hs, String.append_assoc]

set_option maxHeartbeats 3200000 in
/-- C6: for well-formed descriptors the code's formatter builds exactly
the spec's ordered segment list — resolution, whole-Mbps bitrate,
upper-cased video codec, audio summary, subtitle summary — joined by
single spaces; the empty descriptor gives `"Unknown Quality"`, and the
worked example gives `"1920x1080 8Mbps H264 AAC (eng) [Track 2]"`. -/
theorem c6_description :
    (∀ q : QualityInfo, wellFormed q →
      getQualityDescription q = describeSpec q) ∧
    getQualityDescription {} = "Unknown Quality" ∧
    getQualityDescription exDesc =
      "1920x1080 8Mbps H264 AAC (eng) [Track 2]" := by
  refine ⟨?_, by decide, ?_⟩
  · intro q hq
    obtain ⟨w1, w2, w3, w4, w5, w6, w7, w8, w9, w10, w11, w12, w13, w14,
      w15, w16, w17, w18, w19, w20, w21, w22, w23, w24, w25, w26⟩ := hq
    obtain ⟨mvb, vc, mw, mh, vl, pr, mf, vbd, ac, ach, ab, asr, co, sgc,
      suc, asi, ssi, al, sl, mac, tmac, sm, stt, ms, dv, ps⟩ := q
    rcases mw with _ | w <;> rcases mh with _ | h <;>
      rcases mvb with _ | b <;> rcases vc with _ | c <;>
      rcases ac with _ | a <;> rcases sl with _ | s <;>
      rcases ssi with _ | i <;>
      simp_all [getQualityDescription, describeSpec, truthy_some_of_ne,
        truthy_none_eq, optSuffix_paren, optSuffix_track] <;>
      ((try simp only [← String.append_assoc]); rfl)
  · have hfl : mathRound (jdivC (jparse (some "8000000")) 1000000) =
        some 8 := by
      have h1 : jdivC (jparse (some "8000000")) 1000000 =
          some (((8000000 : Int) : ℚ) / 1000000) := rfl
      rw [h1]
      have h2 : mathRound (some (((8000000 : Int) : ℚ) / 1000000)) =
          some ⌊((8000000 : Int) : ℚ) / 1000000 + 1 / 2⌋ := rfl
      rw [h2, Option.some.injEq, Int.floor_eq_iff]
      constructor <;> norm_num
    have hj : jnumIntToString
        (mathRound (jdivC (jparse (some "8000000")) 1000000)) ++ "Mbps" =
        "8Mbps" := by
      rw [hfl]
      rfl
    have step : getQualityDescription exDesc = String.intercalate " "
        ["1920x1080",
         jnumIntToString
           (mathRound (jdivC (jparse (some "8000000")) 1000000)) ++ "Mbps",
         "H264", "AAC (eng) [Track 2]"] := rfl
    rw [step, hj]
    decide

/-- C6, witness: the formatter refinement applied at the worked example
descriptor (which is well-formed). -/
theorem c6_description_witness :
    getQualityDescription exDesc = describeSpec exDesc :=
  c6_description.1 exDesc (by decide)

/-- C7, counterexample: the claim asserts the score is non-negative for
every descriptor whose present numeric attributes parse, but a parseable
negative bitrate gives a negative score. -/
theorem c7_score_negative :
    getQualityScore qNegRate = some (-8 : ℚ) ∧ ¬ (0 : ℚ) ≤ (-8 : ℚ) := by
  constructor
  · have step : getQualityScore qNegRate =
        some (0 + ((-8000 : Int) : ℚ) / 1000) := rfl
    rw [step]
    norm_num
  · norm_num

/-- C7, amended: for every descriptor whose present numeric attributes
parse as integers, the score is exactly the spec's formula
(bitrate/1000 + width·height/1000 + audioBitrate/10, absent terms 0), and
it is non-negative whenever the parsed values are non-negative (but not in
general: parsed values can be negative). -/
theorem c7_score_formula (q : QualityInfo)
    (h1 : q.maxVideoBitrate = none ∨
      ∃ v n, q.maxVideoBitrate = some v ∧ parseIntJS v = some n)
    (h2 : q.maxWidth = none ∨
      ∃ v n, q.maxWidth = some v ∧ parseIntJS v = some n)
    (h3 : q.maxHeight = none ∨
      ∃ v n, q.maxHeight = some v ∧ parseIntJS v = some n)
    (h4 : q.audioBitrate = none ∨
      ∃ v n, q.audioBitrate = some v ∧ parseIntJS v = some n) :
    getQualityScore q = some (specScore q) ∧
    ((∀ v n, q.maxVideoBitrate = some v → parseIntJS v = some n → 0 ≤ n) →
     (∀ v n, q.maxWidth = some v → parseIntJS v = some n → 0 ≤ n) →
     (∀ v n, q.maxHeight = some v → parseIntJS v = some n → 0 ≤ n) →
     (∀ v n, q.audioBitrate = some v → parseIntJS v = some n → 0 ≤ n) →
     0 ≤ specScore q) := by
  constructor
  · rcases h1 with hb | ⟨vb, nb, hb, hpb⟩ <;>
    rcases h2 with hw | ⟨vw, nw, hw, hpw⟩ <;>
    rcases h3 with hh | ⟨vh, nh, hh, hph⟩ <;>
    rcases h4 with ha | ⟨va, na, ha, hpa⟩ <;>
    simp [getQualityScore, specScore, specBitrateTerm, specPixelTerm,
      specAudioTerm, hb, hw, hh, ha, truthy_none_eq, truthy_of_parse,
      jparse, jadd, jmul, jdivC, *]
  · intro g1 g2 g3 g4
    have t1 : 0 ≤ specBitrateTerm q := by
      unfold specBitrateTerm
      rcases hq : q.maxVideoBitrate with _ | v <;> simp only [hq]
      · exact le_refl 0
      · rcases hp : parseIntJS v with _ | n <;> simp only [hp]
        · exact le_refl 0
        · exact div_nonneg (by exact_mod_cast g1 v n hq hp) (by norm_num)
    have t2 : 0 ≤ specPixelTerm q := by
      unfold specPixelTerm
      rcases hqw : q.maxWidth with _ | w <;> rcases hqh : q.maxHeight with _ | h <;>
        simp only [hqw, hqh]
      · exact le_refl 0
      · exact le_refl 0
      · exact le_refl 0
      · rcases hpw : parseIntJS w with _ | nw <;>
          rcases hph : parseIntJS h with _ | nh <;> simp only [hpw, hph]
        · exact le_refl 0
        · exact le_refl 0
        · exact le_refl 0
        · exact div_nonneg (mul_nonneg (by exact_mod_cast g2 w nw hqw hpw)
            (by exact_mod_cast g3 h nh hqh hph)) (by norm_num)
    have t3 : 0 ≤ specAudioTerm q := by
      unfold specAudioTerm
      rcases hq : q.audioBitrate with _ | v <;> simp only [hq]
      · exact le_refl 0
      · rcases hp : parseIntJS v with _ | n <;> simp only [hp]
        · exact le_refl 0
        · exact div_nonneg (by exact_mod_cast g4 v n hq hp) (by norm_num)
    unfold specScore
    exact add_nonneg (add_nonneg t1 t2) t3

/-- C7, witness: the spec's worked example — bitrate 8000000, 1920×1080,
no audio bitrate — scores exactly 10073.6. -/
theorem c7_score_formula_witness :
    getQualityScore exDesc = some (specScore exDesc) ∧
    specScore exDesc = 10073.6 := by
  constructor
  · exact (c7_score_formula exDesc
      (Or.inr ⟨"8000000", 8000000, rfl, by decide⟩)
      (Or.inr ⟨"1920", 1920, rfl, by decide⟩)
      (Or.inr ⟨"1080", 1080, rfl, by decide⟩)
      (Or.inl rfl)).1
  · have hb : parseIntJS "8000000" = some 8000000 := by decide
    have hw : parseIntJS "1920" = some 1920 := by decide
    have hh : parseIntJS "1080" = some 1080 := by decide
    simp only [specScore, specBitrateTerm, specPixelTerm, specAudioTerm,
      exDesc, hb, hw, hh]
    norm_num

/-- C8: `estimatedSize` is 0 when the max video bitrate is absent, and
`(maxVideoBitrate/1000) · 7200 · 1000 / 8` when it is present and parses
as an integer. -/
theorem c8_estimated_size (q : QualityInfo) :
    (q.maxVideoBitrate = none → (getQualityMetrics q).estimatedSize = some 0) ∧
    (∀ v n, q.maxVideoBitrate = some v → parseIntJS v = some n →
      (getQualityMetrics q).estimatedSize =
        some ((n : ℚ) / 1000 * 7200 * 1000 / 8)) := by
  constructor
  · intro h
    simp [getQualityMetrics, h, truthy_none_eq]
  · intro v n hv hp
    simp [getQualityMetrics, hv, truthy_of_parse v (by simp [hp]), jparse,
      hp, jmul, jdivC]

/-- C8, witness: the spec's worked example — bitrate 8000000 gives an
estimated size of 7,200,000,000 bytes. -/
theorem c8_estimated_size_witness :
    (getQualityMetrics exDesc).estimatedSize = some (7200000000 : ℚ) := by
  have h := (c8_estimated_size exDesc).2 "8000000" 8000000 rfl (by decide)
  rw [h]
  norm_num

/-- C9: `areQualitiesEqual` is exactly hash equality, hence reflexive and
symmetric for arbitrary descriptors. -/
theorem c9_equal_is_hash_equality :
    (∀ q1 q2 : QualityInfo, areQualitiesEqual q1 q2 =
      (generateQualityHash q1 == generateQualityHash q2)) ∧
    (∀ q : QualityInfo, areQualitiesEqual q q = true) ∧
    (∀ q1 q2 : QualityInfo,
      areQualitiesEqual q1 q2 = areQualitiesEqual q2 q1) := by
  refine ⟨fun q1 q2 => rfl, fun q => ?_, fun q1 q2 => ?_⟩
  · simp [areQualitiesEqual]
  · simp only [areQualitiesEqual]
    exact Bool.beq_comm

end QualityService
